import Mathlib

/-!
Verification of `src/agent/my_reco.py` (MMGS repository).

The file defines two MAA custom recognizers:
  * `IsNumberGreaterThanZero` — report-only mode: OCR a number, report whether
    it is greater than zero;
  * `NumberComparison` — gating mode: OCR a number, compare it against a
    configured threshold with a configured operator, succeed only when the
    comparison is true.

Shallow embedding conventions:
  * A parsed JSON value (the output of `json.loads`) is a `JVal`.  The raw
    configuration payload string is abstracted as `Option JVal`: `none` models
    a malformed payload on which `json.loads` raises, `some v` models a payload
    parsing to `v`.
  * Python runtime exceptions are the `PyExn` type; a computation that can
    raise is `Except PyExn α`.  The outer `try/except Exception` of each
    `analyze` maps every `.error` to the no-detection value `none`.
  * Python numbers are `PyNum`: exact integers, or floats.  A float is
    modelled as an exact decimal `PyFloat.finite n e` (value `n / 10 ^ e`) or
    one of the special values `inf`, `-inf`, `nan`.  (IEEE binary rounding is
    abstracted away: finite floats are exact decimals.  Every value exercised
    by the claims is exactly representable, so the abstraction is faithful on
    them.)
  * The OCR adapter (`context.run_recognition`) is an arbitrary function from
    the recognizer name and the region to `Except PyExn JVal`: it may return
    any Python value or raise.
  * `json.dumps(result)` serializes the result dict; the detail record is
    modelled as the association list being dumped.
  * Python `str.strip()` is modelled by `pyStrip` (ASCII whitespace).
-/

/-- Python runtime exceptions that the embedded code can raise. -/
inductive PyExn where
  /-- `json.loads` on a malformed payload. -/
  | jsonDecodeError
  /-- attribute access on an object lacking it (e.g. `.get` on a non-dict,
      `.strip` on a non-string). -/
  | attributeError
  /-- reading a local variable that no branch assigned. -/
  | nameError
  /-- e.g. using an unhashable value as a dict key, or an ordered comparison
      between a number and a non-number. -/
  | typeError
  /-- an exception raised inside the external OCR adapter call. -/
  | adapterError
deriving DecidableEq

/-- A Python float: an exact finite decimal `n / 10 ^ e`, or a special value.
Parsed floats are kept in canonical form (`e = 0`, or `n` not divisible
by 10) via `PyFloat.mkFinite`. -/
inductive PyFloat where
  | finite (n : ℤ) (e : ℕ)
  | inf
  | ninf
  | nan
deriving DecidableEq

/-- Strip trailing decimal zeros: the canonical representative of
`n / 10 ^ e`. -/
def canonDecimal : ℤ → ℕ → ℤ × ℕ
  | n, 0 => (n, 0)
  | n, e + 1 => if n % 10 = 0 then canonDecimal (n / 10) e else (n, e + 1)

/-- Canonicalizing constructor for finite floats. -/
def PyFloat.mkFinite (n : ℤ) (e : ℕ) : PyFloat :=
  let p := canonDecimal n e
  PyFloat.finite p.1 p.2

/-- A Python number: `int` or `float`.  (`bool` is handled at the `JVal`
level, since only JSON-derived values carry booleans here.) -/
inductive PyNum where
  | int (z : ℤ)
  | float (f : PyFloat)
deriving DecidableEq

/-- A value produced by `json.loads` (also used for arbitrary adapter
return values). -/
inductive JVal where
  | null
  | bool (b : Bool)
  | num (n : PyNum)
  | str (s : String)
  | arr (elems : List JVal)
  | obj (fields : List (String × JVal))

/-- Boolean equality on `JVal` (structural). -/
def JVal.beq : JVal → JVal → Bool
  | .null, .null => true
  | .bool a, .bool b => a == b
  | .num a, .num b => a == b
  | .str a, .str b => a == b
  | .arr a, .arr b => beqList a b
  | .obj a, .obj b => beqFields a b
  | _, _ => false
where
  /-- Elementwise equality of value lists. -/
  beqList : List JVal → List JVal → Bool
    | [], [] => true
    | x :: xs, y :: ys => x.beq y && beqList xs ys
    | _, _ => false
  /-- Elementwise equality of field lists. -/
  beqFields : List (String × JVal) → List (String × JVal) → Bool
    | [], [] => true
    | (k, x) :: xs, (l, y) :: ys => k == l && x.beq y && beqFields xs ys
    | _, _ => false

/- ### Python numeric text parsing: `float(text)` and `int(text)` -/

/-- Python `str.strip()` (both-ends whitespace removal), on ASCII
whitespace. -/
def pyStrip (s : String) : String :=
  String.mk (((s.toList.dropWhile Char.isWhitespace).reverse.dropWhile
    Char.isWhitespace).reverse)

/-- Leading `+`/`-` sign: returns (isNegative, rest). -/
def stripSign : List Char → Bool × List Char
  | '+' :: r => (false, r)
  | '-' :: r => (true, r)
  | l => (false, l)

/-- Core of a Python `digitpart`: a run of ASCII digits in which single
underscores may appear between digits (`1_000`).  `afterUs` records that the
previous character was an underscore (the next must be a digit).  Returns the
accumulated value, the number of digits read, and the unconsumed rest, or
`none` when an underscore is misplaced (Python raises `ValueError` there). -/
def digitsCore (acc cnt : ℕ) (afterUs : Bool) : List Char → Option (ℕ × ℕ × List Char)
  | [] => if afterUs then none else some (acc, cnt, [])
  | c :: cs =>
    if c.isDigit then
      digitsCore (10 * acc + (c.toNat - '0'.toNat)) (cnt + 1) false cs
    else if c = '_' then
      if afterUs then none else digitsCore acc cnt true cs
    else
      if afterUs then none else some (acc, cnt, c :: cs)

/-- A Python `digitpart`: must start with a digit. -/
def digitPart (l : List Char) : Option (ℕ × ℕ × List Char) :=
  match l with
  | c :: _ => if c.isDigit then digitsCore 0 0 false l else none
  | [] => none

/-- Mantissa of a float literal: `digits [. digits?] | . digits`.  Returns the
exact decimal value as (numerator, power-of-ten exponent) and the rest. -/
def parseMantissa (l : List Char) : Option (ℕ × ℕ × List Char) :=
  match digitPart l with
  | some (iv, _, rest) =>
    match rest with
    | '.' :: rest2 =>
      match digitPart rest2 with
      | some (fv, fcnt, rest3) => some (iv * 10 ^ fcnt + fv, fcnt, rest3)
      | none => some (iv, 0, rest2)
    | _ => some (iv, 0, rest)
  | none =>
    match l with
    | '.' :: rest2 =>
      match digitPart rest2 with
      | some (fv, fcnt, rest3) => some (fv, fcnt, rest3)
      | none => none
    | _ => none

/-- Optional exponent `e|E [sign] digits`; `some (0, l)` when no exponent
marker is present, `none` when a marker is present but malformed. -/
def parseExp (l : List Char) : Option (ℤ × List Char) :=
  match l with
  | c :: rest =>
    if c = 'e' ∨ c = 'E' then
      let (neg, rest2) := stripSign rest
      match digitPart rest2 with
      | some (ev, _, rest3) => some ((if neg then -(ev : ℤ) else (ev : ℤ)), rest3)
      | none => none
    else some (0, l)
  | [] => some (0, [])

/-- Assemble a finite float from a signed decimal mantissa `n / 10 ^ e` and a
base-ten exponent `ex`. -/
def mkScaled (n : ℤ) (e : ℕ) (ex : ℤ) : PyFloat :=
  if 0 ≤ ex then PyFloat.mkFinite (n * (10 : ℤ) ^ ex.toNat) e
  else PyFloat.mkFinite n (e + (-ex).toNat)

/-- Python `float(text)` on an already-stripped string: accepts an optional
sign followed by `inf`/`infinity`/`nan` (case-insensitive) or a decimal
literal with optional fraction and exponent (underscores allowed between
digits).  Returns `none` where Python raises `ValueError`. -/
def pyFloatOfTrimmed (s : String) : Option PyFloat :=
  let (neg, l1) := stripSign s.toList
  let lower := l1.map Char.toLower
  if lower = "inf".toList ∨ lower = "infinity".toList then
    some (if neg then PyFloat.ninf else PyFloat.inf)
  else if lower = "nan".toList then
    some PyFloat.nan
  else
    match parseMantissa l1 with
    | some (m, e, rest) =>
      match parseExp rest with
      | some (ex, rest2) =>
        if rest2 = [] then
          some (mkScaled (if neg then -(m : ℤ) else (m : ℤ)) e ex)
        else none
      | none => none
    | none => none

/-- Python `int(text)` on an already-stripped string: optional sign followed
by a digitpart, nothing else.  Returns `none` where Python raises
`ValueError`. -/
def pyIntOfTrimmed (s : String) : Option ℤ :=
  let (neg, l1) := stripSign s.toList
  match digitPart l1 with
  | some (v, _, []) => some (if neg then -(v : ℤ) else (v : ℤ))
  | _ => none

/- ### Python numeric values and comparison semantics -/

/-- Python `float.is_integer()`. -/
def PyFloat.isInteger : PyFloat → Bool
  | .finite n e => n % (10 : ℤ) ^ e == 0
  | _ => false

/-- The normalization step of gating mode: after `number = float(text)`,
`if number.is_integer(): number = int(number)` — integral floats collapse to
`int`, other floats stay floats.  (`int()` truncates; on an integral float the
truncated quotient is exact.) -/
def PyNum.ofFloatNorm (f : PyFloat) : PyNum :=
  if f.isInteger then
    match f with
    | .finite n e => .int (n.tdiv ((10 : ℤ) ^ e))
    | _ => .float f   -- unreachable: `isInteger` is false on inf/ninf/nan
  else .float f

/-- A Python numeric value with the special floats split out, for defining
comparisons: `fin n e` is the exact value `n / 10 ^ e`. -/
inductive ExtVal where
  | nan
  | ninf
  | fin (n : ℤ) (e : ℕ)
  | inf
deriving DecidableEq

/-- View a float as an `ExtVal`. -/
def PyFloat.toExt : PyFloat → ExtVal
  | .finite n e => .fin n e
  | .inf => .inf
  | .ninf => .ninf
  | .nan => .nan

/-- View a number as an `ExtVal` (ints are exact). -/
def PyNum.toExt : PyNum → ExtVal
  | .int z => .fin z 0
  | .float f => f.toExt

/-- Python `<` on numbers: every comparison involving nan is false; finite
values compare exactly (cross-multiplied decimals). -/
def extLt : ExtVal → ExtVal → Bool
  | .nan, _ => false
  | _, .nan => false
  | .ninf, .ninf => false
  | .ninf, _ => true
  | _, .ninf => false
  | .inf, _ => false
  | .fin _ _, .inf => true
  | .fin a ea, .fin b eb => a * (10 : ℤ) ^ eb < b * (10 : ℤ) ^ ea

/-- Python `==` on numbers: nan is equal to nothing (itself included);
`inf == inf`; finite values compare exactly. -/
def extEq : ExtVal → ExtVal → Bool
  | .nan, _ => false
  | _, .nan => false
  | .ninf, .ninf => true
  | .inf, .inf => true
  | .fin a ea, .fin b eb => a * (10 : ℤ) ^ eb == b * (10 : ℤ) ^ ea
  | _, _ => false

/- ### Python `str()` rendering (for the f-string description) -/

/-- Decimal rendering of `n / 10 ^ e` for `0 < e` (canonical form: `n` not
divisible by 10), e.g. `"5.5"`, `"-0.25"`.  (Python switches to scientific
notation at extreme magnitudes; that regime is not exercised here.) -/
def decimalRepr (n : ℤ) (e : ℕ) : String :=
  let sign := if n < 0 then "-" else ""
  let ds := (toString n.natAbs).toList
  let ds := if ds.length ≤ e then List.replicate (e + 1 - ds.length) '0' ++ ds else ds
  sign ++ String.mk (ds.take (ds.length - e)) ++ "." ++ String.mk (ds.drop (ds.length - e))

/-- Python `str`/`repr` of a float: `str(5.0) = "5.0"`, `str(5.5) = "5.5"`,
`str(float("inf")) = "inf"`, `str(float("nan")) = "nan"`. -/
def PyFloat.pyStr : PyFloat → String
  | .finite n 0 => toString n ++ ".0"
  | .finite n (e + 1) => decimalRepr n (e + 1)
  | .inf => "inf"
  | .ninf => "-inf"
  | .nan => "nan"

/-- Python `str` of a number. -/
def PyNum.pyStr : PyNum → String
  | .int z => toString z
  | .float f => f.pyStr

/-- Python `str` of a JSON-derived value as used in an f-string.  Only
strings, booleans and numbers are reachable in the description; container
rendering is abstracted. -/
def JVal.pyStr : JVal → String
  | .null => "None"
  | .bool true => "True"
  | .bool false => "False"
  | .num n => n.pyStr
  | .str s => s
  | .arr _ => "[...]"
  | .obj _ => "\x7b...\x7d"

/- ### JVal helpers (Python truthiness, type tests) -/

/-- Python truthiness of a JSON-derived value (`not ocr_result`). -/
def JVal.truthy : JVal → Bool
  | .null => false
  | .bool b => b
  | .num (.int z) => z != 0
  | .num (.float (.finite n _)) => n != 0
  | .num (.float _) => true    -- inf/ninf/nan are truthy
  | .str s => s != ""
  | .arr l => !l.isEmpty
  | .obj l => !l.isEmpty

/-- `isinstance(v, dict)`. -/
def JVal.isObj : JVal → Bool
  | .obj _ => true
  | _ => false

/-- `v is None`. -/
def JVal.isNull : JVal → Bool
  | .null => true
  | _ => false

/-- `isinstance(v, (int, float))`.  Python `bool` is a subclass of `int`, so
booleans pass this check. -/
def JVal.isPyNumber : JVal → Bool
  | .num _ => true
  | .bool _ => true
  | _ => false

/-- Whether the value may be used as a dict key (`pipeline_override={ocr_name:
...}` raises `TypeError` on unhashable values: lists and dicts). -/
def JVal.hashable : JVal → Bool
  | .arr _ => false
  | .obj _ => false
  | _ => true

/-- A number-or-bool compare value as an `ExtVal` (`True` compares as 1,
`False` as 0). -/
def JVal.toExtNum? : JVal → Option ExtVal
  | .bool b => some (.fin (if b then 1 else 0) 0)
  | .num n => some n.toExt
  | _ => none

/- ### Operator dispatch -/

/-- `valid_operators = [">", "<", ">=", "<=", "==", "!="]`. -/
def validOperators : List String := [">", "<", ">=", "<=", "==", "!="]

/-- `operator not in valid_operators`: only one of the six operator strings
passes (a non-string value is not a member of a list of strings). -/
def isValidOperator (v : JVal) : Bool :=
  match v with
  | .str s => validOperators.contains s
  | _ => false

/-- Python `==` of an arbitrary value against a string literal (used by the
`if operator == ">"` chain: a non-string operator matches nothing). -/
def JVal.eqStr : JVal → String → Bool
  | .str s, t => s == t
  | _, _ => false

/-- The `if/elif` operator-dispatch chain: `a` is the recognized number, `b`
the compare value.  `none` models the chain falling through with
`comparison_result` left unassigned (impossible after validation). -/
def applyOperator (op : JVal) (a b : ExtVal) : Option Bool :=
  if op.eqStr ">" then some (extLt b a)
  else if op.eqStr "<" then some (extLt a b)
  else if op.eqStr ">=" then some (extLt b a || extEq a b)
  else if op.eqStr "<=" then some (extLt a b || extEq a b)
  else if op.eqStr "==" then some (extEq a b)
  else if op.eqStr "!=" then some (!extEq a b)
  else none

/- ### Result type and shared pipeline pieces -/

/-- `CustomRecognition.AnalyzeResult(box=..., detail=json.dumps(result))`:
the detail is modelled as the dict being serialized. -/
structure AnalyzeResult where
  box : JVal
  detail : List (String × JVal)

/-- The `roi` default `[0, 0, 0, 0]`. -/
def defaultRoi : JVal :=
  JVal.arr [.num (.int 0), .num (.int 0), .num (.int 0), .num (.int 0)]

/-- `params.get("roi", [0, 0, 0, 0])`. -/
def getRoi (kvs : List (String × JVal)) : JVal :=
  (kvs.lookup "roi").getD defaultRoi

/-- `params.get("ocr_name", "MyCustomOCR")`. -/
def getOcrName (kvs : List (String × JVal)) : JVal :=
  (kvs.lookup "ocr_name").getD (JVal.str "MyCustomOCR")

/-- `ocr_result.get("text", "").strip()`: absent key gives `""`; a
non-string value has no `.strip` and raises `AttributeError`. -/
def ocrText (kvs : List (String × JVal)) : Except PyExn String :=
  match kvs.lookup "text" with
  | none => .ok ""
  | some (JVal.str s) => .ok (pyStrip s)
  | some _ => .error .attributeError

/-- The external OCR adapter `context.run_recognition`, abstracted as a
function of the recognizer name and the region (the image and the rest of the
`pipeline_override` payload carry no information the core inspects).  It may
return any value or raise. -/
def OcrAdapter : Type := JVal → JVal → Except PyExn JVal

/- ### `IsNumberGreaterThanZero.analyze` (report-only mode) -/

namespace IsNumberGreaterThanZero

/-- The part of the `try` body after `ocr_result` is obtained: validity check
on the OCR result, text extraction, `int` parsing, result construction
(`src/agent/my_reco.py` lines 48–71). -/
def afterOcr (roi : JVal) (v : JVal) : Except PyExn (Option AnalyzeResult) :=
  match v with
  | JVal.obj kvs =>
    if (JVal.obj kvs).truthy = false then .ok none   -- `not ocr_result`
    else
      match ocrText kvs with
      | .error e => .error e
      | .ok text =>
        match pyIntOfTrimmed text with
        | none => .ok none       -- `except ValueError`: not a valid integer
        | some number =>
          .ok (some { box := roi
                      detail := [("number", JVal.num (.int number)),
                                 ("greater_than_zero", JVal.bool (decide (0 < number)))] })
  | _ => .ok none                -- `not isinstance(ocr_result, dict)`

/-- The whole `try` body of `IsNumberGreaterThanZero.analyze`: payload
parsing, parameter extraction, the OCR call, then `afterOcr`.  `.error`
models an exception escaping the body into the outer handler. -/
def analyzeE (cfg : Option JVal) (runRecognition : OcrAdapter) :
    Except PyExn (Option AnalyzeResult) :=
  match cfg with
  | none => .error .jsonDecodeError       -- `json.loads` raised
  | some (JVal.obj kvs) =>
    let roi := getRoi kvs
    let ocrName := getOcrName kvs
    if ocrName.hashable = false then .error .typeError  -- `{ocr_name: ...}` key
    else
      match runRecognition ocrName roi with
      | .error e => .error e
      | .ok v => afterOcr roi v
  | some _ => .error .attributeError      -- `params.get` on a non-dict

/-- `IsNumberGreaterThanZero.analyze`: the `try` body wrapped in
`except Exception: return None`. -/
def analyze (cfg : Option JVal) (runRecognition : OcrAdapter) :
    Option AnalyzeResult :=
  match analyzeE cfg runRecognition with
  | .ok r => r
  | .error _ => none

end IsNumberGreaterThanZero

/- ### `NumberComparison.analyze` (gating mode) -/

namespace NumberComparison

/-- The resolved parameter set of gating mode. -/
structure Params where
  roi : JVal
  ocrName : JVal
  compareValue : JVal
  operator : JVal

/-- Payload parsing and parameter validation of `NumberComparison.analyze`
(`src/agent/my_reco.py` lines 108–139): `.ok none` models the explicit
`return None` on a missing/non-numeric `compare_value` or an invalid
`operator`; `.error` models an exception escaping into the outer handler. -/
def resolveParams (cfg : Option JVal) : Except PyExn (Option Params) :=
  match cfg with
  | none => .error .jsonDecodeError       -- `json.loads` raised
  | some (JVal.obj kvs) =>
    let roi := getRoi kvs
    let ocrName := getOcrName kvs
    let compareValue := (kvs.lookup "compare_value").getD JVal.null
    let operator := (kvs.lookup "operator").getD (JVal.str ">=")
    if compareValue.isNull then .ok none                   -- `compare_value is None`
    else if compareValue.isPyNumber = false then .ok none  -- not a number
    else if isValidOperator operator = false then .ok none -- unknown operator
    else .ok (some ⟨roi, ocrName, compareValue, operator⟩)
  | some _ => .error .attributeError      -- `params.get` on a non-dict

/-- The part of the `try` body after `ocr_result` is obtained: validity check
on the OCR result, text extraction, `float` parsing and integral collapse,
comparison, description, result construction (lines 141–192). -/
def afterOcr (p : Params) (v : JVal) : Except PyExn (Option AnalyzeResult) :=
  match v with
  | JVal.obj kvs =>
    if (JVal.obj kvs).truthy = false then .ok none   -- `not ocr_result`
    else
      match ocrText kvs with
      | .error e => .error e
      | .ok text =>
        match pyFloatOfTrimmed text with
        | none => .ok none       -- `except ValueError`: not a valid number
        | some f =>
          let number := PyNum.ofFloatNorm f
          match p.compareValue.toExtNum? with
          | none => .error .typeError  -- unreachable: compareValue validated numeric
          | some cv =>
            match applyOperator p.operator number.toExt cv with
            | none => .error .nameError  -- unreachable: operator validated
            | some comparisonResult =>
              let description :=
                number.pyStr ++ " " ++ p.operator.pyStr ++ " " ++ p.compareValue.pyStr
              if comparisonResult = false then .ok none  -- comparison false: no detection
              else
                .ok (some { box := p.roi
                            detail := [("number", JVal.num number),
                                       ("compare_value", p.compareValue),
                                       ("operator", p.operator),
                                       ("result", JVal.bool comparisonResult),
                                       ("description", JVal.str description)] })
  | _ => .ok none                -- `not isinstance(ocr_result, dict)`

/-- The whole `try` body of `NumberComparison.analyze`: parameter resolution,
the OCR call, then `afterOcr`. -/
def analyzeE (cfg : Option JVal) (runRecognition : OcrAdapter) :
    Except PyExn (Option AnalyzeResult) :=
  match resolveParams cfg with
  | .error e => .error e
  | .ok none => .ok none
  | .ok (some p) =>
    if p.ocrName.hashable = false then .error .typeError  -- `{ocr_name: ...}` key
    else
      match runRecognition p.ocrName p.roi with
      | .error e => .error e
      | .ok v => afterOcr p v

/-- `NumberComparison.analyze`: the `try` body wrapped in
`except Exception: return None`. -/
def analyze (cfg : Option JVal) (runRecognition : OcrAdapter) :
    Option AnalyzeResult :=
  match analyzeE cfg runRecognition with
  | .ok r => r
  | .error _ => none

end NumberComparison

/-- Gating-mode normalization as a function of the stripped OCR text:
`float(text)` followed by the integral collapse. -/
def normalizeNC (text : String) : Option PyNum :=
  (pyFloatOfTrimmed text).map PyNum.ofFloatNorm

/-- An adapter that answers every recognition request with a dict carrying
the given text (the shape of a successful OCR call). -/
def okTextAdapter (s : String) : OcrAdapter :=
  fun _ _ => .ok (JVal.obj [("text", JVal.str s)])

/- ### Helper lemmas -/

/-- Text-congruence of the gating tail: OCR texts whose stripped forms parse
to the same float are indistinguishable downstream. -/
theorem NumberComparison.afterOcr_text_congr (p : NumberComparison.Params) (s t : String)
    (h : pyFloatOfTrimmed (pyStrip s) = pyFloatOfTrimmed (pyStrip t)) :
    NumberComparison.afterOcr p (JVal.obj [("text", JVal.str s)]) =
      NumberComparison.afterOcr p (JVal.obj [("text", JVal.str t)]) := by
  unfold NumberComparison.afterOcr
  simp only [JVal.truthy, List.isEmpty, ocrText, List.lookup, beq_self_eq_true,
    Bool.not_false]
  rw [h]

/-- Text-congruence lifted to the whole gating recognizer. -/
theorem NumberComparison.analyze_text_congr (cfg : Option JVal) (s t : String)
    (h : pyFloatOfTrimmed (pyStrip s) = pyFloatOfTrimmed (pyStrip t)) :
    NumberComparison.analyze cfg (okTextAdapter s) =
      NumberComparison.analyze cfg (okTextAdapter t) := by
  unfold NumberComparison.analyze NumberComparison.analyzeE
  cases hr : NumberComparison.resolveParams cfg with
  | error e => rfl
  | ok po =>
    cases po with
    | none => rfl
    | some p =>
      by_cases hh : p.ocrName.hashable = false
      · simp [hh]
      · simp [hh, okTextAdapter, NumberComparison.afterOcr_text_congr p s t h]

/- ### Claims -/

/-- C3: for every configuration payload (malformed ones included) and every
adapter behavior (raising included), both analyze operations propagate no
exception: the result of the `try` body is returned when it is a normal value,
and every exception is converted to the uniform no-detection value `none` at
the outer boundary. -/
theorem claim_C3 (cfg : Option JVal) (ad : OcrAdapter) :
    (IsNumberGreaterThanZero.analyzeE cfg ad =
        .ok (IsNumberGreaterThanZero.analyze cfg ad) ∨
      (∃ e, IsNumberGreaterThanZero.analyzeE cfg ad = .error e ∧
        IsNumberGreaterThanZero.analyze cfg ad = none)) ∧
    (NumberComparison.analyzeE cfg ad =
        .ok (NumberComparison.analyze cfg ad) ∨
      (∃ e, NumberComparison.analyzeE cfg ad = .error e ∧
        NumberComparison.analyze cfg ad = none)) := by
  constructor
  · cases h : IsNumberGreaterThanZero.analyzeE cfg ad with
    | ok r => exact Or.inl (by simp [IsNumberGreaterThanZero.analyze, h])
    | error e => exact Or.inr ⟨e, rfl, by simp [IsNumberGreaterThanZero.analyze, h]⟩
  · cases h : NumberComparison.analyzeE cfg ad with
    | ok r => exact Or.inl (by simp [NumberComparison.analyze, h])
    | error e => exact Or.inr ⟨e, rfl, by simp [NumberComparison.analyze, h]⟩

/-- C4: gating-mode normalization collapses integral values to integers:
`"5"` and `"5.0"` both normalize to the integer 5 (and the whole recognizer
cannot distinguish the two texts, for any configuration), while `"5.5"`
normalizes to the float 5.5. -/
theorem claim_C4 :
    normalizeNC "5" = some (PyNum.int 5) ∧
    normalizeNC "5.0" = some (PyNum.int 5) ∧
    normalizeNC "5.5" = some (PyNum.float (PyFloat.finite 55 1)) ∧
    ∀ cfg : Option JVal,
      NumberComparison.analyze cfg (okTextAdapter "5") =
        NumberComparison.analyze cfg (okTextAdapter "5.0") :=
  ⟨rfl, rfl, rfl, fun cfg => NumberComparison.analyze_text_congr cfg "5" "5.0" rfl⟩

/-- C5: in gating mode, a payload whose `compare_value` is missing (or null)
or not numeric makes `NumberComparison.analyze` fail with `none`, whatever
the OCR adapter would return. -/
theorem claim_C5 (kvs : List (String × JVal))
    (h : kvs.lookup "compare_value" = none ∨
      ∃ v, kvs.lookup "compare_value" = some v ∧
        (v.isNull = true ∨ v.isPyNumber = false)) :
    ∀ ad : OcrAdapter, NumberComparison.analyze (some (JVal.obj kvs)) ad = none := by
  have hres : NumberComparison.resolveParams (some (JVal.obj kvs)) = .ok none := by
    unfold NumberComparison.resolveParams
    rcases h with h | ⟨v, hl, h⟩
    · simp [h, JVal.isNull]
    · rcases h with h | h
      · simp [hl, h]
      · cases hn : v.isNull
        · simp [hl, hn, h]
        · simp [hl, hn]
  intro ad
  unfold NumberComparison.analyze NumberComparison.analyzeE
  rw [hres]

/-- C5 witness: `compare_value` present but a string fails, with a healthy
adapter. -/
theorem claim_C5_witness :
    NumberComparison.analyze
      (some (JVal.obj [("compare_value", JVal.str "3")])) (okTextAdapter "5") = none :=
  claim_C5 [("compare_value", JVal.str "3")]
    (Or.inr ⟨JVal.str "3", rfl, Or.inr rfl⟩) (okTextAdapter "5")

/-- C6: in gating mode, a payload carrying an operator that is not one of the
six recognized symbols fails during parameter resolution — before the OCR
call: `resolveParams` already returns the failure, and the result is `none`
for every adapter. -/
theorem claim_C6 (kvs : List (String × JVal))
    (h : ∃ v, kvs.lookup "operator" = some v ∧ isValidOperator v = false) :
    NumberComparison.resolveParams (some (JVal.obj kvs)) = .ok none ∧
    ∀ ad : OcrAdapter, NumberComparison.analyze (some (JVal.obj kvs)) ad = none := by
  obtain ⟨v, hl, hv⟩ := h
  have hres : NumberComparison.resolveParams (some (JVal.obj kvs)) = .ok none := by
    unfold NumberComparison.resolveParams
    cases hc : kvs.lookup "compare_value" with
    | none => simp [hc, JVal.isNull]
    | some w =>
      cases hn : w.isNull
      · cases hp : w.isPyNumber
        · simp [hc, hn, hp]
        · simp [hc, hn, hp, hl, hv]
      · simp [hc, hn]
  refine ⟨hres, fun ad => ?_⟩
  unfold NumberComparison.analyze NumberComparison.analyzeE
  rw [hres]

/-- C6 witness: the spec's example operator `"<>"` with a numeric
`compare_value` fails at resolution and yields `none` for a healthy
adapter. -/
theorem claim_C6_witness :
    NumberComparison.resolveParams
        (some (JVal.obj [("compare_value", JVal.num (.int 1)),
                         ("operator", JVal.str "<>")])) = .ok none ∧
      NumberComparison.analyze
        (some (JVal.obj [("compare_value", JVal.num (.int 1)),
                         ("operator", JVal.str "<>")])) (okTextAdapter "99") = none := by
  have h := claim_C6 [("compare_value", JVal.num (.int 1)), ("operator", JVal.str "<>")]
    ⟨JVal.str "<>", rfl, rfl⟩
  exact ⟨h.1, h.2 (okTextAdapter "99")⟩

/-- C9: the gating-mode numeric check accepts Python booleans (a `bool` is an
`int` in Python): a payload with `compare_value: true` passes validation with
the boolean retained, the comparison treats it as the number 1 (so OCR text
`"1"` satisfies the default `>=` and `"0"` does not), and the description
renders it as `True`. -/
theorem claim_C9 :
    NumberComparison.resolveParams (some (JVal.obj [("compare_value", JVal.bool true)])) =
      .ok (some ⟨defaultRoi, JVal.str "MyCustomOCR", JVal.bool true, JVal.str ">="⟩) ∧
    JVal.toExtNum? (JVal.bool true) = some (ExtVal.fin 1 0) ∧
    NumberComparison.analyze (some (JVal.obj [("compare_value", JVal.bool true)]))
        (okTextAdapter "1") =
      some { box := defaultRoi
             detail := [("number", JVal.num (.int 1)),
                        ("compare_value", JVal.bool true),
                        ("operator", JVal.str ">="),
                        ("result", JVal.bool true),
                        ("description", JVal.str "1 >= True")] } ∧
    NumberComparison.analyze (some (JVal.obj [("compare_value", JVal.bool true)]))
        (okTextAdapter "0") = none :=
  ⟨rfl, rfl, rfl, rfl⟩

/-- C10: gating-mode normalization accepts everything Python `float` parsing
accepts, not only plain decimals: `"inf"`, `"nan"` and `"1e3"` normalize to
infinity, nan and the integer 1000; and OCR text `"inf"` under operator `">"`
succeeds against every finite `compare_value` (int or float). -/
theorem claim_C10 :
    normalizeNC "inf" = some (PyNum.float PyFloat.inf) ∧
    normalizeNC "nan" = some (PyNum.float PyFloat.nan) ∧
    normalizeNC "1e3" = some (PyNum.int 1000) ∧
    (∀ z : ℤ, ∃ r, NumberComparison.analyze
      (some (JVal.obj [("compare_value", JVal.num (.int z)), ("operator", JVal.str ">")]))
      (okTextAdapter "inf") = some r) ∧
    (∀ (n : ℤ) (e : ℕ), ∃ r, NumberComparison.analyze
      (some (JVal.obj [("compare_value", JVal.num (.float (.finite n e))),
                       ("operator", JVal.str ">")]))
      (okTextAdapter "inf") = some r) :=
  ⟨rfl, rfl, rfl, fun _ => ⟨_, rfl⟩, fun _ _ => ⟨_, rfl⟩⟩

/-- An OCR return value the claims call invalid: falsy, not a dict, or a dict
whose `text` field is absent or the empty string. -/
def BadOcrValue (v : JVal) : Prop :=
  v.truthy = false ∨ v.isObj = false ∨
    ∃ kvs, v = JVal.obj kvs ∧
      (kvs.lookup "text" = none ∨ kvs.lookup "text" = some (JVal.str ""))

/-- Report-only tail on an invalid OCR value: always the explicit `None`. -/
theorem IsNumberGreaterThanZero.afterOcr_bad_report (roi v) (h : BadOcrValue v) :
    IsNumberGreaterThanZero.afterOcr roi v = .ok none := by
  match v with
  | .null | .bool _ | .num _ | .str _ | .arr _ => rfl
  | .obj kvs =>
    rcases h with h | h | ⟨kvs2, he, hl⟩
    · simp [IsNumberGreaterThanZero.afterOcr, h]
    · simp [JVal.isObj] at h
    · cases he
      cases ht : (JVal.obj kvs).truthy
      · simp [IsNumberGreaterThanZero.afterOcr, ht]
      · rcases hl with hl | hl <;>
          simp [IsNumberGreaterThanZero.afterOcr, ht, ocrText, hl,
            show pyIntOfTrimmed "" = none from rfl, show pyStrip "" = "" from rfl]

/-- Gating tail on an invalid OCR value: always the explicit `None`. -/
theorem NumberComparison.afterOcr_bad_gating (p v) (h : BadOcrValue v) :
    NumberComparison.afterOcr p v = .ok none := by
  match v with
  | .null | .bool _ | .num _ | .str _ | .arr _ => rfl
  | .obj kvs =>
    rcases h with h | h | ⟨kvs2, he, hl⟩
    · simp [NumberComparison.afterOcr, h]
    · simp [JVal.isObj] at h
    · cases he
      cases ht : (JVal.obj kvs).truthy
      · simp [NumberComparison.afterOcr, ht]
      · rcases hl with hl | hl <;>
          simp [NumberComparison.afterOcr, ht, ocrText, hl,
            show pyFloatOfTrimmed "" = none from rfl, show pyStrip "" = "" from rfl]

/-- C7: in both modes, an OCR adapter answer that is falsy, not a mapping, or
a mapping with an absent or empty `text` field makes analyze return the
no-detection value `none`, for every configuration payload. -/
theorem claim_C7 (cfg : Option JVal) (v : JVal) (h : BadOcrValue v) :
    IsNumberGreaterThanZero.analyze cfg (fun _ _ => .ok v) = none ∧
    NumberComparison.analyze cfg (fun _ _ => .ok v) = none := by
  constructor
  · cases cfg with
    | none => rfl
    | some c =>
      match c with
      | .null | .bool _ | .num _ | .str _ | .arr _ => rfl
      | .obj kvs =>
        unfold IsNumberGreaterThanZero.analyze IsNumberGreaterThanZero.analyzeE
        cases hh : (getOcrName kvs).hashable
        · simp [hh]
        · simp [hh, IsNumberGreaterThanZero.afterOcr_bad_report _ v h]
  · cases cfg with
    | none => rfl
    | some c =>
      match c with
      | .null | .bool _ | .num _ | .str _ | .arr _ => rfl
      | .obj kvs =>
        unfold NumberComparison.analyze NumberComparison.analyzeE
        cases hr : NumberComparison.resolveParams (some (JVal.obj kvs)) with
        | error e => rfl
        | ok po =>
          cases po with
          | none => rfl
          | some p =>
            cases hh : p.ocrName.hashable
            · simp [hh]
            · simp [hh, NumberComparison.afterOcr_bad_gating p v h]

/-- C7 witness: a null OCR result (falsy) fails in both modes under a
well-formed gating configuration. -/
theorem claim_C7_witness :
    IsNumberGreaterThanZero.analyze
        (some (JVal.obj [("compare_value", JVal.num (.int 3))]))
        (fun _ _ => .ok JVal.null) = none ∧
      NumberComparison.analyze
        (some (JVal.obj [("compare_value", JVal.num (.int 3))]))
        (fun _ _ => .ok JVal.null) = none :=
  claim_C7 (some (JVal.obj [("compare_value", JVal.num (.int 3))])) JVal.null (Or.inl rfl)

/-- C2: the report-only recognizer succeeds whenever OCR yields a mapping
whose stripped text parses as an integer, carrying `number` and
`greater_than_zero` regardless of the sign; `"42"` reports true, `"-3"`
reports false, and non-integer text (`"-3.5"`, `"abc"`) fails with `none`. -/
theorem claim_C2 :
    (∀ (kvs0 kvs : List (String × JVal)) (ad : OcrAdapter) (s : String) (z : ℤ),
      (getOcrName kvs0).hashable = true →
      ad (getOcrName kvs0) (getRoi kvs0) = .ok (JVal.obj kvs) →
      kvs.lookup "text" = some (JVal.str s) →
      pyIntOfTrimmed (pyStrip s) = some z →
      IsNumberGreaterThanZero.analyze (some (JVal.obj kvs0)) ad =
        some { box := getRoi kvs0
               detail := [("number", JVal.num (.int z)),
                          ("greater_than_zero", JVal.bool (decide (0 < z)))] }) ∧
    IsNumberGreaterThanZero.analyze (some (JVal.obj [])) (okTextAdapter "42") =
      some { box := defaultRoi
             detail := [("number", JVal.num (.int 42)),
                        ("greater_than_zero", JVal.bool true)] } ∧
    IsNumberGreaterThanZero.analyze (some (JVal.obj [])) (okTextAdapter "-3") =
      some { box := defaultRoi
             detail := [("number", JVal.num (.int (-3))),
                        ("greater_than_zero", JVal.bool false)] } ∧
    IsNumberGreaterThanZero.analyze (some (JVal.obj [])) (okTextAdapter "-3.5") = none ∧
    IsNumberGreaterThanZero.analyze (some (JVal.obj [])) (okTextAdapter "abc") = none := by
  refine ⟨?_, rfl, rfl, rfl, rfl⟩
  intro kvs0 kvs ad s z hh had hl hp
  have hkvs : kvs ≠ [] := by
    intro hk
    rw [hk] at hl
    simp [List.lookup] at hl
  have ht : (JVal.obj kvs).truthy = true := by
    cases kvs with
    | nil => exact absurd rfl hkvs
    | cons a l => rfl
  unfold IsNumberGreaterThanZero.analyze IsNumberGreaterThanZero.analyzeE
  simp [hh, had, IsNumberGreaterThanZero.afterOcr, ht, ocrText, hl, hp]

/-- C2 witness: a concrete instance of the general clause at OCR text
`"7"`. -/
theorem claim_C2_witness :
    IsNumberGreaterThanZero.analyze (some (JVal.obj [])) (okTextAdapter "7") =
      some { box := defaultRoi
             detail := [("number", JVal.num (.int 7)),
                        ("greater_than_zero", JVal.bool true)] } :=
  claim_C2.1 [] [("text", JVal.str "7")] (okTextAdapter "7") "7" 7 rfl rfl rfl rfl

/-- Shape of every successful gating result: the detail record carries
exactly `number`, `compare_value`, `operator`, `result` (true) and the
rendered description, and the box is the resolved region. -/
theorem NumberComparison.afterOcr_some (p : NumberComparison.Params) (v : JVal)
    (r : AnalyzeResult) (h : NumberComparison.afterOcr p v = .ok (some r)) :
    ∃ n : PyNum,
      r = { box := p.roi
            detail := [("number", JVal.num n),
                       ("compare_value", p.compareValue),
                       ("operator", p.operator),
                       ("result", JVal.bool true),
                       ("description",
                         JVal.str (n.pyStr ++ " " ++ p.operator.pyStr ++ " " ++
                           p.compareValue.pyStr))] } := by
  match v with
  | .null | .bool _ | .num _ | .str _ | .arr _ => simp [NumberComparison.afterOcr] at h
  | .obj kvs =>
    cases ht : (JVal.obj kvs).truthy with
    | false => simp [NumberComparison.afterOcr, ht] at h
    | true =>
      cases hoc : ocrText kvs with
      | error e => simp [NumberComparison.afterOcr, ht, hoc] at h
      | ok text =>
        cases hf : pyFloatOfTrimmed text with
        | none => simp [NumberComparison.afterOcr, ht, hoc, hf] at h
        | some f =>
          cases hcv : p.compareValue.toExtNum? with
          | none => simp [NumberComparison.afterOcr, ht, hoc, hf, hcv] at h
          | some cv =>
            cases hop : applyOperator p.operator (PyNum.ofFloatNorm f).toExt cv with
            | none => simp [NumberComparison.afterOcr, ht, hoc, hf, hcv, hop] at h
            | some b =>
              cases b with
              | false => simp [NumberComparison.afterOcr, ht, hoc, hf, hcv, hop] at h
              | true =>
                simp [NumberComparison.afterOcr, ht, hoc, hf, hcv, hop] at h
                exact ⟨PyNum.ofFloatNorm f, h.symm⟩

/-- C8: a gating success carries exactly the fields `number`,
`compare_value`, `operator`, `result` (true) and a description
`"<number> <operator> <compareValue>"`; concretely, `compare_value: 3`,
`operator: ">="` and OCR text `"5"` yield the detail
`number: 5, compare_value: 3, operator: ">=", result: true,
description: "5 >= 3"` on the default region. -/
theorem claim_C8 :
    (∀ (cfg : Option JVal) (ad : OcrAdapter) (r : AnalyzeResult),
      NumberComparison.analyze cfg ad = some r →
      ∃ (n : PyNum) (cv op : JVal),
        r.detail = [("number", JVal.num n),
                    ("compare_value", cv),
                    ("operator", op),
                    ("result", JVal.bool true),
                    ("description",
                      JVal.str (n.pyStr ++ " " ++ op.pyStr ++ " " ++ cv.pyStr))]) ∧
    NumberComparison.analyze
        (some (JVal.obj [("compare_value", JVal.num (.int 3)),
                         ("operator", JVal.str ">=")]))
        (okTextAdapter "5") =
      some { box := defaultRoi
             detail := [("number", JVal.num (.int 5)),
                        ("compare_value", JVal.num (.int 3)),
                        ("operator", JVal.str ">="),
                        ("result", JVal.bool true),
                        ("description", JVal.str "5 >= 3")] } := by
  refine ⟨?_, rfl⟩
  intro cfg ad r h
  have hE : NumberComparison.analyzeE cfg ad = .ok (some r) := by
    unfold NumberComparison.analyze at h
    cases hE : NumberComparison.analyzeE cfg ad with
    | error e => rw [hE] at h; simp at h
    | ok o =>
      rw [hE] at h
      simp only at h
      rw [h]
  unfold NumberComparison.analyzeE at hE
  cases hres : NumberComparison.resolveParams cfg with
  | error e => rw [hres] at hE; simp at hE
  | ok po =>
    rw [hres] at hE
    cases po with
    | none => simp at hE
    | some p =>
      simp only at hE
      by_cases hh : p.ocrName.hashable = false
      · rw [if_pos hh] at hE; simp at hE
      · rw [if_neg hh] at hE
        cases had : ad p.ocrName p.roi with
        | error e => rw [had] at hE; simp at hE
        | ok v =>
          rw [had] at hE
          obtain ⟨n, hr⟩ := NumberComparison.afterOcr_some p v r hE
          rw [hr]
          exact ⟨n, p.compareValue, p.operator, rfl⟩

/-- C8 witness: the shape clause instantiated at the concrete scenario. -/
theorem claim_C8_witness :
    ∃ (n : PyNum) (cv op : JVal),
      AnalyzeResult.detail
          { box := defaultRoi
            detail := [("number", JVal.num (.int 5)),
                       ("compare_value", JVal.num (.int 3)),
                       ("operator", JVal.str ">="),
                       ("result", JVal.bool true),
                       ("description", JVal.str "5 >= 3")] } =
        [("number", JVal.num n),
         ("compare_value", cv),
         ("operator", op),
         ("result", JVal.bool true),
         ("description",
           JVal.str (n.pyStr ++ " " ++ op.pyStr ++ " " ++ cv.pyStr))] :=
  claim_C8.1
    (some (JVal.obj [("compare_value", JVal.num (.int 3)), ("operator", JVal.str ">=")]))
    (okTextAdapter "5") _ rfl

/-- Success conditions of gating mode, phrased over the pipeline stages: the
payload resolves to validated parameters, the recognizer name is usable as an
override key, the adapter answers with a dict, its text extracts cleanly,
the stripped text normalizes to a number, the compare value reads as a
number, and the comparison evaluates to true. -/
def GatingSuccess (cfg : Option JVal) (ad : OcrAdapter) : Prop :=
  ∃ p : NumberComparison.Params,
    NumberComparison.resolveParams cfg = .ok (some p) ∧
    p.ocrName.hashable = true ∧
    ∃ kvs : List (String × JVal), ad p.ocrName p.roi = .ok (JVal.obj kvs) ∧
    ∃ s : String, ocrText kvs = .ok s ∧
    ∃ n : PyNum, normalizeNC s = some n ∧
    ∃ cv : ExtVal, p.compareValue.toExtNum? = some cv ∧
    applyOperator p.operator n.toExt cv = some true

/-- Gating tail succeeds exactly on a dict whose text normalizes to a number
satisfying the comparison.  (An empty dict is falsy and short-circuits, but
its default text `""` does not normalize either, so truthiness adds no
case.) -/
theorem NumberComparison.afterOcr_some_iff (p : NumberComparison.Params) (v : JVal) :
    (∃ r, NumberComparison.afterOcr p v = .ok (some r)) ↔
    (∃ kvs, v = JVal.obj kvs ∧
      ∃ s, ocrText kvs = .ok s ∧
      ∃ n, normalizeNC s = some n ∧
      ∃ cv, p.compareValue.toExtNum? = some cv ∧
      applyOperator p.operator n.toExt cv = some true) := by
  match v with
  | .null | .bool _ | .num _ | .str _ | .arr _ => simp [NumberComparison.afterOcr]
  | .obj kvs =>
    constructor
    · rintro ⟨r, h⟩
      cases ht : (JVal.obj kvs).truthy with
      | false => simp [NumberComparison.afterOcr, ht] at h
      | true =>
        cases hoc : ocrText kvs with
        | error e => simp [NumberComparison.afterOcr, ht, hoc] at h
        | ok text =>
          cases hf : pyFloatOfTrimmed text with
          | none => simp [NumberComparison.afterOcr, ht, hoc, hf] at h
          | some f =>
            cases hcv : p.compareValue.toExtNum? with
            | none => simp [NumberComparison.afterOcr, ht, hoc, hf, hcv] at h
            | some cv =>
              cases hop : applyOperator p.operator (PyNum.ofFloatNorm f).toExt cv with
              | none => simp [NumberComparison.afterOcr, ht, hoc, hf, hcv, hop] at h
              | some b =>
                cases b with
                | false => simp [NumberComparison.afterOcr, ht, hoc, hf, hcv, hop] at h
                | true =>
                  exact ⟨kvs, rfl, text, hoc, PyNum.ofFloatNorm f,
                    by simp [normalizeNC, hf], cv, rfl, hop⟩
    · rintro ⟨kvs2, he, s, hoc, n, hn, cv, hcv, hop⟩
      injection he with he2
      subst he2
      obtain ⟨f, hf, hfn⟩ : ∃ f, pyFloatOfTrimmed s = some f ∧ PyNum.ofFloatNorm f = n := by
        cases hf : pyFloatOfTrimmed s with
        | none => simp [normalizeNC, hf] at hn
        | some f => simp [normalizeNC, hf] at hn; exact ⟨f, rfl, hn⟩
      subst hfn
      have hkvs : kvs ≠ [] := by
        intro hk
        subst hk
        have hs : s = "" := by
          have h0 := hoc
          simp [ocrText, List.lookup] at h0
          exact h0.symm
        subst hs
        simp [show pyFloatOfTrimmed "" = none from rfl] at hf
      have ht : (JVal.obj kvs).truthy = true := by
        cases hk : kvs with
        | nil => exact absurd hk hkvs
        | cons a l => rfl
      refine ⟨{ box := p.roi
                detail := [("number", JVal.num (PyNum.ofFloatNorm f)),
                           ("compare_value", p.compareValue),
                           ("operator", p.operator),
                           ("result", JVal.bool true),
                           ("description",
                             JVal.str ((PyNum.ofFloatNorm f).pyStr ++ " " ++
                               p.operator.pyStr ++ " " ++ p.compareValue.pyStr))] }, ?_⟩
      simp only [NumberComparison.afterOcr, ht, hoc, hf, hcv, hop]
      rfl

/-- C1: the gating recognizer succeeds (returns an `AnalyzeResult`) exactly
when the payload validates, the OCR adapter returns a mapping whose stripped
text normalizes to a number, and that number satisfies the configured
comparison; every other case — config error, OCR failure, parse failure, or a
false comparison — yields the no-detection value `none`. -/
theorem claim_C1 (cfg : Option JVal) (ad : OcrAdapter) :
    (∃ r, NumberComparison.analyze cfg ad = some r) ↔ GatingSuccess cfg ad := by
  have hAE : (∃ r, NumberComparison.analyze cfg ad = some r) ↔
      (∃ r, NumberComparison.analyzeE cfg ad = .ok (some r)) := by
    unfold NumberComparison.analyze
    cases hE : NumberComparison.analyzeE cfg ad with
    | error e => simp
    | ok o => cases o <;> simp
  rw [hAE]
  unfold GatingSuccess NumberComparison.analyzeE
  cases hres : NumberComparison.resolveParams cfg with
  | error e => simp
  | ok po =>
    cases po with
    | none => simp
    | some p =>
      by_cases hh : p.ocrName.hashable = false
      · simp [hh]
      · have hh2 : p.ocrName.hashable = true := by
          revert hh
          cases p.ocrName.hashable <;> simp
        cases had : ad p.ocrName p.roi with
        | error e => simp [hh2, had]
        | ok v => simp [hh2, had, NumberComparison.afterOcr_some_iff p v]

/-- C1 witness: the right-hand side is satisfiable and forces a success — a
payload with threshold 4 and default operator, OCR text `"6"`. -/
theorem claim_C1_witness :
    ∃ r, NumberComparison.analyze
      (some (JVal.obj [("compare_value", JVal.num (.int 4))]))
      (okTextAdapter "6") = some r :=
  (claim_C1 (some (JVal.obj [("compare_value", JVal.num (.int 4))]))
      (okTextAdapter "6")).mpr
    ⟨⟨defaultRoi, JVal.str "MyCustomOCR", JVal.num (.int 4), JVal.str ">="⟩,
      rfl, rfl, [("text", JVal.str "6")], rfl, "6", rfl, PyNum.int 6, rfl,
      ExtVal.fin 4 0, rfl, rfl⟩

/-- C3 witness: the boundary conversion at a concrete malformed payload. -/
theorem claim_C3_witness :
    (IsNumberGreaterThanZero.analyzeE none (okTextAdapter "5") =
        .ok (IsNumberGreaterThanZero.analyze none (okTextAdapter "5")) ∨
      (∃ e, IsNumberGreaterThanZero.analyzeE none (okTextAdapter "5") = .error e ∧
        IsNumberGreaterThanZero.analyze none (okTextAdapter "5") = none)) ∧
    (NumberComparison.analyzeE none (okTextAdapter "5") =
        .ok (NumberComparison.analyze none (okTextAdapter "5")) ∨
      (∃ e, NumberComparison.analyzeE none (okTextAdapter "5") = .error e ∧
        NumberComparison.analyze none (okTextAdapter "5") = none)) :=
  claim_C3 none (okTextAdapter "5")

/-- C4 witness: the recognizer-level congruence at a concrete
configuration. -/
theorem claim_C4_witness :
    NumberComparison.analyze (some (JVal.obj [("compare_value", JVal.num (.int 5))]))
        (okTextAdapter "5") =
      NumberComparison.analyze (some (JVal.obj [("compare_value", JVal.num (.int 5))]))
        (okTextAdapter "5.0") :=
  claim_C4.2.2.2 (some (JVal.obj [("compare_value", JVal.num (.int 5))]))

/-- C10 witness: OCR text `"inf"` beats the concrete finite threshold 7. -/
theorem claim_C10_witness :
    ∃ r, NumberComparison.analyze
      (some (JVal.obj [("compare_value", JVal.num (.int 7)), ("operator", JVal.str ">")]))
      (okTextAdapter "inf") = some r :=
  claim_C10.2.2.2.1 7
